import Mathlib

/-!
Shallow embedding of the campaign-scheduling core of the Twitch-Drops-Bot
repository (`src/twitch_drops_bot.ts`), together with proofs about its
behaviour.  Pure fragments of the TypeScript become Lean functions; the
stateful fragments become explicit state-passing functions; network calls
become oracle parameters supplying each call's outcome.  Times are modelled
as integers (milliseconds, as returned by `Date.getTime()` / `Date.parse`).
-/

namespace TwitchDropsBot

/-- The game record nested in a drop campaign (`campaign.game`). -/
structure Game where
  id : String
  displayName : String
deriving Repr, DecidableEq

/-- A drop campaign as stored in `#dropCampaignMap`.  `endAt` keeps the raw
string form from the API; the comparator parses it with `Date.parse`,
modelled below by an oracle `parseDate`. -/
structure DropCampaign where
  id : String
  game : Game
  status : String
  endAt : String
deriving Repr, DecidableEq

/-- JavaScript `Array.prototype.indexOf`: the index of the first strict-equal
element, or `-1` when absent. -/
def jsIndexOf (l : List String) (x : String) : Int :=
  match l.indexOf? x with
  | some i => (i : Int)
  | none => -1

/-- The comparator of `#pendingDropCampaignIds` (twitch_drops_bot.ts,
lines 142-167).  `gameIds` is the configured game-priority list,
`campaigns` is the campaign map (`#getDropCampaignById`), and `parseDate`
models `Date.parse` on the stored `endAt` strings.  Returns the JS
comparator's number, restricted to {-1, 0, 1} as the source produces. -/
def compareDropCampaignIds (gameIds : List String)
    (campaigns : String → DropCampaign) (parseDate : String → Int)
    (a b : String) : Int :=
  if a = b then 0
  else
    let campaignA := campaigns a
    let campaignB := campaigns b
    let indexA := jsIndexOf gameIds campaignA.game.id
    let indexB := jsIndexOf gameIds campaignB.game.id
    if indexA = -1 ∧ indexB ≠ -1 then 1
    else if indexA ≠ -1 ∧ indexB = -1 then -1
    else if indexA = indexB then
      let endTimeA := parseDate campaignA.endAt
      let endTimeB := parseDate campaignB.endAt
      if endTimeA = endTimeB then (if a < b then -1 else 1)
      else if endTimeA < endTimeB then -1 else 1
    else (indexA - indexB).sign

end TwitchDropsBot

namespace TwitchDropsBot

/-- C1: the pending-queue comparator orders campaign identifiers by: equality,
then presence/index of the game id in the configured priority list, then
earlier end timestamp, then lexicographically smaller identifier; and a
campaign whose game is first in the priority list sorts before one whose game
is absent from the list, regardless of end times. -/
theorem pending_queue_comparator_orders_as_specified
    (gameIds : List String) (campaigns : String → DropCampaign)
    (parseDate : String → Int) (a b : String) :
    (a = b → compareDropCampaignIds gameIds campaigns parseDate a b = 0)
    ∧ (jsIndexOf gameIds (campaigns a).game.id = -1 →
       jsIndexOf gameIds (campaigns b).game.id ≠ -1 →
       compareDropCampaignIds gameIds campaigns parseDate a b = 1)
    ∧ (a ≠ b →
       jsIndexOf gameIds (campaigns a).game.id =
         jsIndexOf gameIds (campaigns b).game.id →
       parseDate (campaigns a).endAt < parseDate (campaigns b).endAt →
       compareDropCampaignIds gameIds campaigns parseDate a b = -1)
    ∧ (a ≠ b →
       jsIndexOf gameIds (campaigns a).game.id =
         jsIndexOf gameIds (campaigns b).game.id →
       parseDate (campaigns a).endAt = parseDate (campaigns b).endAt →
       a < b →
       compareDropCampaignIds gameIds campaigns parseDate a b = -1)
    ∧ (jsIndexOf gameIds (campaigns a).game.id ≠ -1 →
       jsIndexOf gameIds (campaigns b).game.id ≠ -1 →
       jsIndexOf gameIds (campaigns a).game.id ≠
         jsIndexOf gameIds (campaigns b).game.id →
       compareDropCampaignIds gameIds campaigns parseDate a b =
         (jsIndexOf gameIds (campaigns a).game.id -
          jsIndexOf gameIds (campaigns b).game.id).sign)
    ∧ (jsIndexOf gameIds (campaigns a).game.id = 0 →
       jsIndexOf gameIds (campaigns b).game.id = -1 →
       compareDropCampaignIds gameIds campaigns parseDate a b = -1) := by
  refine ⟨?_, ?_, ?_, ?_, ?_, ?_⟩
  · intro hab
    simp [compareDropCampaignIds, hab]
  · intro hA hB
    have hab : a ≠ b := by
      intro h
      rw [h] at hA
      exact hB hA
    simp only [compareDropCampaignIds]
    rw [if_neg hab, if_pos ⟨hA, hB⟩]
  · intro hab hidx hend
    simp only [compareDropCampaignIds]
    rw [if_neg hab]
    rw [if_neg (by
      rintro ⟨h1, h2⟩
      exact h2 (hidx ▸ h1))]
    rw [if_neg (by
      rintro ⟨h1, h2⟩
      exact h1 (hidx ▸ h2))]
    rw [if_pos hidx, if_neg (by
      intro h
      exact absurd h (ne_of_lt hend)), if_pos hend]
  · intro hab hidx hend hlt
    simp only [compareDropCampaignIds]
    rw [if_neg hab]
    rw [if_neg (by
      rintro ⟨h1, h2⟩
      exact h2 (hidx ▸ h1))]
    rw [if_neg (by
      rintro ⟨h1, h2⟩
      exact h1 (hidx ▸ h2))]
    rw [if_pos hidx, if_pos hend, if_pos hlt]
  · intro hA hB hne
    have hab : a ≠ b := by
      intro h
      exact hne (by rw [h])
    simp only [compareDropCampaignIds]
    rw [if_neg hab]
    rw [if_neg (by
      rintro ⟨h1, _⟩
      exact hA h1)]
    rw [if_neg (by
      rintro ⟨_, h2⟩
      exact hB h2)]
    rw [if_neg hne]
  · intro hA hB
    have hA' : jsIndexOf gameIds (campaigns a).game.id ≠ -1 := by
      rw [hA]
      decide
    have hab : a ≠ b := by
      intro h
      exact hA' (h ▸ hB)
    simp only [compareDropCampaignIds]
    rw [if_neg hab]
    rw [if_neg (by
      rintro ⟨h1, _⟩
      exact hA' h1)]
    rw [if_pos ⟨hA', hB⟩]

instance : Inhabited DropCampaign :=
  ⟨{ id := "", game := { id := "", displayName := "" }, status := "", endAt := "" }⟩

/-- Concrete campaign map used by witnesses: three campaigns, one for a game
first in the priority list, one for a listed game, one for an unlisted game. -/
def witnessCampaigns : String → DropCampaign := fun id =>
  if id = "campA" then
    { id := "campA", game := { id := "g1", displayName := "Game One" },
      status := "ACTIVE", endAt := "end-late" }
  else if id = "campB" then
    { id := "campB", game := { id := "g2", displayName := "Game Two" },
      status := "ACTIVE", endAt := "end-early" }
  else
    { id := "campC", game := { id := "g9", displayName := "Game Nine" },
      status := "ACTIVE", endAt := "end-early" }

/-- Concrete `Date.parse` oracle used by witnesses. -/
def witnessParseDate : String → Int := fun s =>
  if s = "end-early" then 1000 else 2000

/-- The configuration fields of the bot read by the watchdog 'update'
handler (`#gameIds`, `#ignoredGameIds`, `#watchUnlistedGames`). -/
structure WatchdogConfig where
  gameIds : List String
  ignoredGameIds : List String
  watchUnlistedGames : Bool
deriving Repr

/-- The mutable scheduler state touched by the watchdog handlers:
`#pendingDropCampaignIds`, `#dropCampaignMap`, `#currentDropCampaignId` and
`#pendingHighPriority`. -/
structure SchedulerState where
  pendingDropCampaignIds : List String
  dropCampaignMap : String → Option DropCampaign
  currentDropCampaignId : Option String
  pendingHighPriority : Bool

/-- Observable signals a watchdog tick produces: waking all waiters on
`#pendingDropCampaignIdsNotifier` (`notifyAll()`), or the watchdog's
'error' event. -/
inductive WatchdogSignal where
  | notifyAll
  | errorEvent
deriving Repr, DecidableEq

/-- The library operation SortedArray.insert: insertion keeping the list ordered by the
comparator (the library inserts at the position found by search; any
position consistent with the comparator yields the same membership). -/
def sortedInsert (cmp : String → String → Int) (x : String) :
    List String → List String
  | [] => [x]
  | y :: ys => if cmp x y ≤ 0 then x :: y :: ys else y :: sortedInsert cmp x ys

theorem mem_sortedInsert (cmp : String → String → Int) (x a : String)
    (l : List String) : a ∈ sortedInsert cmp x l ↔ a = x ∨ a ∈ l := by
  induction l with
  | nil => simp [sortedInsert]
  | cons y ys ih =>
      simp only [sortedInsert]
      by_cases h : cmp x y ≤ 0
      · rw [if_pos h]
        simp [or_comm, or_left_comm]
      · rw [if_neg h]
        simp [ih, or_comm, or_left_comm]

/-- The body of the `campaigns.forEach` loop of the watchdog 'update'
handler (twitch_drops_bot.ts, lines 278-303), acting on the accumulated
(pending queue, campaign map) pair: skip campaigns that are neither ACTIVE
nor UPCOMING, skip ignored games, store the campaign in the map, and insert
its id into the pending queue when the game list is empty, contains the
game, or unlisted games are watched. -/
def rebuildStep (cfg : WatchdogConfig) (parseDate : String → Int)
    (acc : List String × (String → Option DropCampaign)) (c : DropCampaign) :
    List String × (String → Option DropCampaign) :=
  if c.status ≠ "ACTIVE" ∧ c.status ≠ "UPCOMING" then acc
  else if c.game.id ∈ cfg.ignoredGameIds then acc
  else
    let map := fun id => if id = c.id then some c else acc.2 id
    if cfg.gameIds = [] ∨ c.game.id ∈ cfg.gameIds ∨ cfg.watchUnlistedGames then
      (sortedInsert
        (compareDropCampaignIds cfg.gameIds (fun id => (map id).getD default)
          parseDate)
        c.id acc.1, map)
    else (acc.1, map)

/-- The watchdog 'update' handler (twitch_drops_bot.ts, lines 269-316):
pop every pending id, rebuild the queue from the fetched campaigns, then —
when a campaign is currently being worked on — consult
`#hasPendingHigherPriorityStream` (whose awaited result is supplied here as
the oracle `hasHigher`) and set the preemption flag if it reports true;
finally wake all waiters. -/
def onWatchdogUpdate (cfg : WatchdogConfig) (parseDate : String → Int)
    (hasHigher : Bool) (campaigns : List DropCampaign) (s : SchedulerState) :
    SchedulerState × List WatchdogSignal :=
  let rebuilt := campaigns.foldl (rebuildStep cfg parseDate)
    ([], s.dropCampaignMap)
  let newFlag :=
    if s.currentDropCampaignId ≠ none then
      (if hasHigher then true else s.pendingHighPriority)
    else s.pendingHighPriority
  ({ pendingDropCampaignIds := rebuilt.1,
     dropCampaignMap := rebuilt.2,
     currentDropCampaignId := s.currentDropCampaignId,
     pendingHighPriority := newFlag },
   [WatchdogSignal.notifyAll])

/-- The watchdog 'error' handler (twitch_drops_bot.ts, lines 266-268): it
only logs; the scheduler state is untouched and no waiter is woken. -/
def onWatchdogError (s : SchedulerState) : SchedulerState × List WatchdogSignal :=
  (s, [])

/-- Modelled from the spec: the watchdog itself (src/watchdog.ts is not
among the provided sources) each tick calls the external client for the
campaign list and emits 'update' with the list on success, or 'error' on
failure; `fetch = none` models a failed fetch.  The handlers dispatched to
are the ones registered in the constructor, embedded above. -/
def watchdogTick (cfg : WatchdogConfig) (parseDate : String → Int)
    (hasHigher : Bool) (fetch : Option (List DropCampaign))
    (s : SchedulerState) : SchedulerState × List WatchdogSignal :=
  match fetch with
  | some campaigns => onWatchdogUpdate cfg parseDate hasHigher campaigns s
  | none =>
      let r := onWatchdogError s
      (r.1, WatchdogSignal.errorEvent :: r.2)

/-- Eligibility of a fetched campaign for the rebuilt pending queue, read
off the filters of the 'update' handler. -/
def eligibleForQueue (cfg : WatchdogConfig) (c : DropCampaign) : Prop :=
  (c.status = "ACTIVE" ∨ c.status = "UPCOMING")
  ∧ c.game.id ∉ cfg.ignoredGameIds
  ∧ (cfg.gameIds = [] ∨ c.game.id ∈ cfg.gameIds ∨ cfg.watchUnlistedGames)

instance (cfg : WatchdogConfig) (c : DropCampaign) :
    Decidable (eligibleForQueue cfg c) := by
  unfold eligibleForQueue
  infer_instance

theorem mem_foldl_rebuildStep (cfg : WatchdogConfig) (parseDate : String → Int)
    (cs : List DropCampaign) (x : String) :
    ∀ acc : List String × (String → Option DropCampaign),
      (x ∈ (cs.foldl (rebuildStep cfg parseDate) acc).1 ↔
        x ∈ acc.1 ∨ ∃ c ∈ cs, c.id = x ∧ eligibleForQueue cfg c) := by
  induction cs with
  | nil => intro acc; simp
  | cons c cs ih =>
      intro acc
      rw [List.foldl_cons, ih]
      have hstep : (rebuildStep cfg parseDate acc c).1 =
          (if eligibleForQueue cfg c then
            sortedInsert
              (compareDropCampaignIds cfg.gameIds
                (fun id => ((fun i => if i = c.id then some c else acc.2 i) id).getD
                  default) parseDate)
              c.id acc.1
          else acc.1) := by
        unfold rebuildStep eligibleForQueue
        by_cases h1 : c.status = "ACTIVE" ∨ c.status = "UPCOMING"
        · rw [if_neg (by
            rintro ⟨ha, hu⟩
            rcases h1 with h | h
            exacts [ha h, hu h])]
          by_cases h2 : c.game.id ∈ cfg.ignoredGameIds
          · rw [if_pos h2, if_neg (by rintro ⟨_, hni, _⟩; exact hni h2)]
          · rw [if_neg h2]
            by_cases h3 : cfg.gameIds = [] ∨ c.game.id ∈ cfg.gameIds ∨
                cfg.watchUnlistedGames
            · rw [if_pos h3, if_pos ⟨h1, h2, h3⟩]
            · rw [if_neg h3, if_neg (by rintro ⟨_, _, hg⟩; exact h3 hg)]
        · rw [if_pos (by
            constructor
            · intro ha; exact h1 (Or.inl ha)
            · intro hu; exact h1 (Or.inr hu))]
          rw [if_neg (by rintro ⟨hs, _, _⟩; exact h1 hs)]
      rw [hstep]
      by_cases he : eligibleForQueue cfg c
      · rw [if_pos he, mem_sortedInsert]
        constructor
        · rintro ((h | h) | h)
          · exact Or.inr ⟨c, List.mem_cons_self c cs, h.symm, he⟩
          · exact Or.inl h
          · rcases h with ⟨d, hd, hdx, hde⟩
            exact Or.inr ⟨d, List.mem_cons_of_mem c hd, hdx, hde⟩
        · rintro (h | ⟨d, hd, hdx, hde⟩)
          · exact Or.inl (Or.inr h)
          · rcases List.mem_cons.mp hd with rfl | hd'
            · exact Or.inl (Or.inl hdx.symm)
            · exact Or.inr ⟨d, hd', hdx, hde⟩
      · rw [if_neg he]
        constructor
        · rintro (h | h)
          · exact Or.inl h
          · rcases h with ⟨d, hd, hdx, hde⟩
            exact Or.inr ⟨d, List.mem_cons_of_mem c hd, hdx, hde⟩
        · rintro (h | ⟨d, hd, hdx, hde⟩)
          · exact Or.inl h
          · rcases List.mem_cons.mp hd with rfl | hd'
            · exact absurd hde he
            · exact Or.inr ⟨d, hd', hdx, hde⟩

/-- C5: a successful refresh clears and rebuilds the pending queue to hold
exactly the fetched campaign ids that are ACTIVE or UPCOMING, not ignored,
and allowed by the game list (or the list is empty, or unlisted games are
watched); a failed fetch leaves the queue (and the rest of the scheduler
state) unchanged and emits the error event without aborting the tick. -/
theorem watchdog_refresh_rebuilds_queue (cfg : WatchdogConfig)
    (parseDate : String → Int) (hasHigher : Bool) (cs : List DropCampaign)
    (s : SchedulerState) :
    (∀ x, x ∈ (watchdogTick cfg parseDate hasHigher (some cs)
        s).1.pendingDropCampaignIds ↔
      ∃ c ∈ cs, c.id = x ∧ eligibleForQueue cfg c)
    ∧ (watchdogTick cfg parseDate hasHigher none s).1 = s
    ∧ (watchdogTick cfg parseDate hasHigher none s).2 =
        [WatchdogSignal.errorEvent] := by
  refine ⟨?_, rfl, rfl⟩
  intro x
  have h := mem_foldl_rebuildStep cfg parseDate cs x ([], s.dropCampaignMap)
  simpa [watchdogTick, onWatchdogUpdate] using h

/-- An expired campaign, used by witnesses as a queue-ineligible input. -/
def witnessExpiredCampaign : DropCampaign :=
  { id := "campX", game := { id := "g1", displayName := "Game One" },
    status := "EXPIRED", endAt := "end-early" }

/-- Configuration used by witnesses. -/
def witnessCfg : WatchdogConfig :=
  { gameIds := ["g1", "g2"], ignoredGameIds := ["g3"],
    watchUnlistedGames := false }

/-- Scheduler state used by witnesses. -/
def witnessState : SchedulerState :=
  { pendingDropCampaignIds := ["staleId"], dropCampaignMap := fun _ => none,
    currentDropCampaignId := none, pendingHighPriority := false }

/-- Witness for C5: on a concrete fetch of one ACTIVE and one EXPIRED
campaign, the rebuilt queue contains the ACTIVE one and not the EXPIRED one
nor the stale pre-refresh entry. -/
theorem watchdog_refresh_rebuilds_queue_witness :
    ("campA" ∈ (watchdogTick witnessCfg witnessParseDate false
        (some [witnessCampaigns "campA", witnessExpiredCampaign])
        witnessState).1.pendingDropCampaignIds)
    ∧ ¬("campX" ∈ (watchdogTick witnessCfg witnessParseDate false
        (some [witnessCampaigns "campA", witnessExpiredCampaign])
        witnessState).1.pendingDropCampaignIds)
    ∧ ¬("staleId" ∈ (watchdogTick witnessCfg witnessParseDate false
        (some [witnessCampaigns "campA", witnessExpiredCampaign])
        witnessState).1.pendingDropCampaignIds) := by
  have h := watchdog_refresh_rebuilds_queue witnessCfg witnessParseDate false
    [witnessCampaigns "campA", witnessExpiredCampaign] witnessState
  refine ⟨(h.1 "campA").mpr ⟨witnessCampaigns "campA", by decide, by decide,
    by decide⟩, ?_, ?_⟩
  · intro hmem
    rcases (h.1 "campX").mp hmem with ⟨c, hc, hid, helig⟩
    rcases List.mem_cons.mp hc with rfl | hc'
    · exact absurd hid (by decide)
    · rcases List.mem_cons.mp hc' with rfl | hc''
      · revert helig
        decide
      · exact absurd hc'' (List.not_mem_nil c)
  · intro hmem
    rcases (h.1 "staleId").mp hmem with ⟨c, hc, hid, helig⟩
    rcases List.mem_cons.mp hc with rfl | hc'
    · exact absurd hid (by decide)
    · rcases List.mem_cons.mp hc' with rfl | hc''
      · exact absurd hid (by decide)
      · exact absurd hc'' (List.not_mem_nil c)

/-- C8 counterexample: on a failed fetch (a concrete refresh tick where the
campaign fetch errors), the handlers do not invoke `notifyAll`; only the
error event is produced, so not every refresh tick wakes the waiters. -/
theorem watchdog_error_tick_does_not_notify :
    WatchdogSignal.notifyAll ∉
      (watchdogTick witnessCfg witnessParseDate false none
        witnessState).2 := by
  simp [watchdogTick, onWatchdogError]

/-- C8 (amended): the notify-all operation is invoked after every
*successful* refresh tick, but a tick whose campaign fetch fails produces
only the error event and wakes no waiter. -/
theorem watchdog_notifies_exactly_on_successful_refresh
    (cfg : WatchdogConfig) (parseDate : String → Int) (hasHigher : Bool)
    (s : SchedulerState) :
    (∀ cs, (watchdogTick cfg parseDate hasHigher (some cs) s).2 =
      [WatchdogSignal.notifyAll])
    ∧ (watchdogTick cfg parseDate hasHigher none s).2 =
      [WatchdogSignal.errorEvent] :=
  ⟨fun _ => rfl, rfl⟩

/-- The distinguishable failure signals a watch session can end with
(src/errors.ts is referenced but the kinds are all that matters here):
`NoProgressError`, `HighPriorityError`, `StreamLoadFailedError`,
`StreamDownError`, or any other error. -/
inductive SessionError where
  | noProgress
  | highPriority
  | streamLoadFailed
  | streamDown
  | otherError
deriving Repr, DecidableEq

/-- Modelled from the spec: `TimedSet` (the Expiring Set of §2/§4.3; its
implementation lives in src/utils.ts, which is not among the provided
sources) — a set of keys each inserted with an expiry of `now + timeoutMs`,
membership checked with lazy expiry. -/
structure TimedSet where
  entries : List (String × Int)
  timeoutMs : Int

/-- Modelled from the spec: insertion gives the key a time-to-live of the
set's configured timeout. -/
def TimedSet.add (s : TimedSet) (now : Int) (x : String) : TimedSet :=
  { s with entries := (x, now + s.timeoutMs) :: s.entries }

/-- Modelled from the spec: a key is a member while some entry for it has
not yet expired. -/
def TimedSet.has (s : TimedSet) (now : Int) (x : String) : Bool :=
  s.entries.any (fun e => e.1 = x ∧ now < e.2)

/-- The failure-tracking state of the bot: `#failedStreamUrlCounts` (a JS
object, so lookup of an absent key is distinguishable from a stored value)
and `#streamUrlTemporaryBlacklist`. -/
structure FailState where
  failedStreamUrlCounts : String → Option Int
  blacklist : TimedSet

/-- The unconditional tail of `#watchStreamWrapper`'s catch block
(twitch_drops_bot.ts, lines 808-817): create the counter at zero if absent,
increment it, and when it reaches `#failedStreamRetryCount` add the url to
the temporary blacklist and reset the counter to zero. -/
def recordFailure (retryCount : Int) (url : String) (now : Int)
    (st : FailState) : FailState :=
  let c0 := (st.failedStreamUrlCounts url).getD 0
  let c1 := c0 + 1
  if retryCount ≤ c1 then
    { failedStreamUrlCounts := fun u =>
        if u = url then some 0 else st.failedStreamUrlCounts u,
      blacklist := st.blacklist.add now url }
  else
    { st with failedStreamUrlCounts := fun u =>
        if u = url then some c1 else st.failedStreamUrlCounts u }

/-- The catch block of `#watchStreamWrapper` (twitch_drops_bot.ts, lines
788-820): a `StreamDownError` first blacklists the url immediately and
zeroes its counter; then — for every error kind, including
`HighPriorityError` — the failure counter is incremented via the logic of
lines 808-817, and the error is re-thrown. -/
def watchStreamWrapperFailure (retryCount : Int) (kind : SessionError)
    (url : String) (now : Int) (st : FailState) : FailState :=
  let st1 :=
    if kind = SessionError.streamDown then
      { failedStreamUrlCounts := fun u =>
          if u = url then some 0 else st.failedStreamUrlCounts u,
        blacklist := st.blacklist.add now url }
    else st
  recordFailure retryCount url now st1

/-- The method watchStreamWrapper as a state transformer: the session body's outcome
(`none` = returned normally, `some e` = threw `e`) determines whether the
failure bookkeeping runs; the error is always re-thrown. -/
def watchStreamWrapper (retryCount : Int) (outcome : Option SessionError)
    (url : String) (now : Int) (st : FailState) :
    FailState × Option SessionError :=
  match outcome with
  | none => (st, none)
  | some e => (watchStreamWrapperFailure retryCount e url now st, some e)

/-- A live stream as returned by the API client (`url` and
`broadcaster_id` are the only fields the core reads). -/
structure Stream where
  url : String
  broadcaster_id : String
deriving Repr, DecidableEq

/-- The field details.allow of a campaign-detail record: the enabled flag and the
optional channel allow-list (modelled by the channels' ids, which is all
lines 984-994 read from it). -/
structure AllowList where
  isEnabled : Bool
  channels : Option (List String)
deriving Repr, DecidableEq

/-- The campaign-detail record: the core reads only the allow-list from it. -/
structure DropCampaignDetails where
  allow : AllowList
deriving Repr, DecidableEq

/-- The method getActiveStreams (twitch_drops_bot.ts, lines 979-998):
`clientStreams` is the awaited result of the client's `getActiveStreams`
call (already restricted to streams tagged `DROPS_ENABLED` by the request);
when the campaign's allow-list is enabled and has channels, keep only
streams of those broadcasters.  Note: no blacklist filtering happens here. -/
def getActiveStreams (clientStreams : List Stream)
    (details : DropCampaignDetails) : List Stream :=
  if details.allow.isEnabled then
    match details.allow.channels with
    | some channelIds =>
        clientStreams.filter (fun s => s.broadcaster_id ∈ channelIds)
    | none => clientStreams
  else clientStreams

/-- An inventory drop record, flattening the `self` sub-object
(`self.currentMinutesWatched`, `self.dropInstanceID`) next to
`requiredMinutesWatched`, which are the fields the core reads. -/
structure InventoryDrop where
  currentMinutesWatched : Int
  requiredMinutesWatched : Int
  dropInstanceID : String
deriving Repr, DecidableEq

/-- JavaScript truthiness test of the cool-down guard
`if (lastAttemptTime) { if (now - lastAttemptTime < sleepTime) continue; }`:
an absent entry and a stored 0 are both falsy. -/
def cooldownSkip (lastAttemptTime : Option Int) (now sleepTime : Int) : Bool :=
  match lastAttemptTime with
  | some t => t ≠ 0 ∧ now - t < sleepTime
  | none => false

/-- The per-candidate environment of one `#hasPendingHigherPriorityStream`
loop iteration: the campaign's status and last-attempt record, and the
outcomes of the awaited external calls (`getInventory`,
`getDropCampaignDetails`, `getFirstUnclaimedDrop`, `getInventoryDrop`, and
the client stream fetch inside `#getActiveStreams`; `none` models a
throw/absent result). -/
structure CandidateProbe where
  status : String
  lastAttemptTime : Option Int
  inventoryOk : Bool
  detailsFetch : Option DropCampaignDetails
  firstUnclaimedDrop : Option String
  inventoryDrop : Option InventoryDrop
  streamsFetch : Option (List Stream)

/-- The method hasPendingHigherPriorityStream (twitch_drops_bot.ts, lines 323-397),
iterating the pending queue in priority order; returns the boolean result
together with the list of drop-instance ids for which a claim call was
issued as a side effect, in order. -/
def hasPendingHigherPriorityStream (env : String → CandidateProbe)
    (current : Option String) (now sleepTime : Int) :
    List String → Bool × List String
  | [] => (false, [])
  | id :: rest =>
    if some id = current then (false, [])
    else
      let p := env id
      if cooldownSkip p.lastAttemptTime now sleepTime then
        hasPendingHigherPriorityStream env current now sleepTime rest
      else if p.status ≠ "ACTIVE" then
        hasPendingHigherPriorityStream env current now sleepTime rest
      else if !p.inventoryOk then
        hasPendingHigherPriorityStream env current now sleepTime rest
      else
        match p.detailsFetch with
        | none => hasPendingHigherPriorityStream env current now sleepTime rest
        | some details =>
          match p.firstUnclaimedDrop with
          | none =>
              hasPendingHigherPriorityStream env current now sleepTime rest
          | some _ =>
            let streamCheck :=
              match p.streamsFetch with
              | none =>
                  hasPendingHigherPriorityStream env current now sleepTime rest
              | some streams =>
                  if 0 < (getActiveStreams streams details).length then
                    (true, [])
                  else
                    hasPendingHigherPriorityStream env current now sleepTime
                      rest
            match p.inventoryDrop with
            | some idrop =>
                if idrop.requiredMinutesWatched ≤
                    idrop.currentMinutesWatched then
                  let r := hasPendingHigherPriorityStream env current now
                    sleepTime rest
                  (r.1, idrop.dropInstanceID :: r.2)
                else streamCheck
            | none => streamCheck

/-- A time-based drop as read by `#processDropCampaign` from
`getFirstUnclaimedDrop` (id, required watch minutes, end timestamp). -/
structure TimeBasedDrop where
  id : String
  requiredMinutesWatched : Int
  endAt : String
deriving Repr, DecidableEq

/-- Observable actions of one campaign-processing iteration, in order. -/
inductive Event where
  | fetchInventory
  | claim (dropInstanceID : String)
  | selectStreams
  | watch (url : String)
deriving Repr, DecidableEq

/-- Environment of one attempt of the inner stream-watching loop of
`#processDropCampaign` (lines 648-686): the client stream fetch result
(`none` models `#getActiveStreams` throwing) and the watch session's
outcome (`none` = success). -/
structure WatchAttemptEnv where
  clientStreams : Option (List Stream)
  watchOutcome : Option SessionError

/-- How one campaign-processing iteration ends. -/
inductive IterResult where
  | continueLoop
  | breakLoop
  | throwNoStreams
  | throwHighPriority
  | throwApiError
  | fuelOut
deriving Repr, DecidableEq

/-- The inner stream-watching loop of `#processDropCampaign`
(twitch_drops_bot.ts, lines 648-686): fetch active streams (a throw
propagates), drop blacklisted urls, throw `NoStreamsError` when none is
left, otherwise watch the first one through `#watchStreamWrapper`; a
session success breaks to the outer loop, `HighPriorityError` is re-thrown,
every other session error retries stream selection.  One `WatchAttemptEnv`
is consumed per attempt; an exhausted environment list ends in `fuelOut`. -/
def innerWatchLoop (retryCount : Int) (details : DropCampaignDetails)
    (now : Int) (st : FailState) :
    List WatchAttemptEnv → List Event × FailState × IterResult
  | [] => ([], st, IterResult.fuelOut)
  | a :: rest =>
    match a.clientStreams with
    | none => ([Event.selectStreams], st, IterResult.throwApiError)
    | some cls =>
      let streams := (getActiveStreams cls details).filter
        (fun s => !(st.blacklist.has now s.url))
      match streams with
      | [] => ([Event.selectStreams], st, IterResult.throwNoStreams)
      | first :: _ =>
        let evs := [Event.selectStreams, Event.watch first.url]
        match a.watchOutcome with
        | none => (evs, st, IterResult.continueLoop)
        | some e =>
          let st' := watchStreamWrapperFailure retryCount e first.url now st
          if e = SessionError.highPriority then
            (evs, st', IterResult.throwHighPriority)
          else
            let r := innerWatchLoop retryCount details now st' rest
            (evs ++ r.1, r.2.1, r.2.2)

/-- Environment of one iteration of the outer loop of
`#processDropCampaign` (lines 610-687): the inventory fetch outcome, the
results of `getFirstUnclaimedDrop` / `getInventoryDrop` on the freshly
fetched inventory, and the environments for the inner watch attempts. -/
structure IterEnv where
  inventoryOk : Bool
  firstUnclaimedDrop : Option TimeBasedDrop
  inventoryDrop : Option InventoryDrop
  attempts : List WatchAttemptEnv

/-- One iteration of the outer `while (true)` loop of
`#processDropCampaign` (twitch_drops_bot.ts, lines 610-687): fetch
inventory (a throw propagates); stop when no unclaimed drop is left; claim
the first unclaimed drop and restart the loop when its inventory record
shows the watch requirement met; abandon the campaign when it cannot be
finished in time (unless `#attemptImpossibleDropCampaigns`); otherwise
clear all failure counters (lines 644-646) and run the inner watch loop.
The impossible-drop test compares remaining active time against remaining
watch time; the source computes in fractional minutes, embedded here as
the equivalent integer comparison in milliseconds. -/
def processIteration (attemptImpossible : Bool) (retryCount : Int)
    (parseDate : String → Int) (details : DropCampaignDetails)
    (env : IterEnv) (now : Int) (st : FailState) :
    List Event × FailState × IterResult :=
  if !env.inventoryOk then ([Event.fetchInventory], st,
    IterResult.throwApiError)
  else
    match env.firstUnclaimedDrop with
    | none => ([Event.fetchInventory], st, IterResult.breakLoop)
    | some drop =>
      let afterClaimCheck := fun (currentMinutesWatched : Int) =>
        let remainingWatchTimeMin :=
          drop.requiredMinutesWatched - currentMinutesWatched
        let remainingActiveTimeMs := parseDate drop.endAt - now
        if !attemptImpossible ∧
            remainingActiveTimeMs < remainingWatchTimeMin * 60000 then
          ([Event.fetchInventory], st, IterResult.breakLoop)
        else
          let st1 : FailState :=
            { failedStreamUrlCounts := fun _ => none,
              blacklist := st.blacklist }
          let r := innerWatchLoop retryCount details now st1 env.attempts
          (Event.fetchInventory :: r.1, r.2.1, r.2.2)
      match env.inventoryDrop with
      | some idrop =>
          if idrop.requiredMinutesWatched ≤ idrop.currentMinutesWatched then
            ([Event.fetchInventory, Event.claim idrop.dropInstanceID], st,
              IterResult.continueLoop)
          else afterClaimCheck idrop.currentMinutesWatched
      | none => afterClaimCheck 0

/-- The constant sleepTimeMilliseconds = 1000 * 60 * 5 — the cool-down window
between attempts of the same campaign. -/
def sleepTimeMilliseconds : Int := 1000 * 60 * 5

/-- The sleep-duration computation of the orchestrator's sleeping branch
(twitch_drops_bot.ts, lines 540-548): starting from the current time, take
the minimum over the pending campaigns' recorded last-attempt times (a
stored 0 is falsy in the guard `if (lastCheckTime)`, like an absent entry),
then sleep `max(0, sleepTimeMilliseconds - (now - min))`. -/
def computeSleepTime (pending : List String)
    (lastAttemptTimes : String → Option Int) (now : Int) : Int :=
  let minLast := pending.foldl (fun m id =>
    match lastAttemptTimes id with
    | some t => if t ≠ 0 then min m t else m
    | none => m) now
  max 0 (sleepTimeMilliseconds - (now - minLast))

/-- The ways `#processDropCampaign` can come back to the orchestrator
(twitch_drops_bot.ts, lines 561-578): a normal return, `NoStreamsError`,
`HighPriorityError`, or any other error. -/
inductive ProcessOutcome where
  | normal
  | noStreams
  | highPriority
  | otherError
deriving Repr, DecidableEq

/-- The orchestrator's campaign-attempt block (twitch_drops_bot.ts, lines
561-578): `#processDropCampaign` runs inside a try whose catch arms only
log (NoStreams, HighPriority and other errors are all swallowed), and whose
finally sets `#currentDropCampaignId = null`.  `s` is the scheduler state
as left behind by the processing, whatever the outcome. -/
def campaignAttempt (outcome : ProcessOutcome) (s : SchedulerState) :
    SchedulerState :=
  let afterCatch :=
    match outcome with
    | ProcessOutcome.normal => s
    | ProcessOutcome.noStreams => s
    | ProcessOutcome.highPriority => s
    | ProcessOutcome.otherError => s
  { afterCatch with currentDropCampaignId := none }

/-- The claim-ready test of the probe (lines 369-371): true when the
inventory record of the first unclaimed drop exists and its watch
requirement is met. -/
def claimReadyProbe (p : CandidateProbe) : Bool :=
  match p.inventoryDrop with
  | some idrop =>
      idrop.requiredMinutesWatched ≤ idrop.currentMinutesWatched
  | none => false

/-- C2: the higher-priority check walks the pending queue in priority
order, returns false (keeping earlier side effects) at the currently-active
entry or at the end; skips a candidate on cool-down, non-ACTIVE status,
failed inventory or detail fetch, or absent first unclaimed drop; claims a
watch-complete first unclaimed drop as a side effect and continues; and
returns true at the first candidate with at least one eligible live stream,
treating a failed or empty stream probe as one more skip rather than an
abort. -/
theorem higher_priority_check_iterates_as_specified
    (env : String → CandidateProbe) (current : Option String)
    (now sleepTime : Int) (id : String) (rest : List String) :
    (hasPendingHigherPriorityStream env current now sleepTime [] =
      (false, []))
    ∧ (some id = current →
        hasPendingHigherPriorityStream env current now sleepTime
          (id :: rest) = (false, []))
    ∧ (some id ≠ current →
        (cooldownSkip (env id).lastAttemptTime now sleepTime = true
          ∨ (env id).status ≠ "ACTIVE"
          ∨ (env id).inventoryOk = false
          ∨ (env id).detailsFetch = none
          ∨ (env id).firstUnclaimedDrop = none) →
        hasPendingHigherPriorityStream env current now sleepTime
          (id :: rest) =
        hasPendingHigherPriorityStream env current now sleepTime rest)
    ∧ (∀ idrop, some id ≠ current →
        cooldownSkip (env id).lastAttemptTime now sleepTime = false →
        (env id).status = "ACTIVE" →
        (env id).inventoryOk = true →
        (env id).detailsFetch ≠ none →
        (env id).firstUnclaimedDrop ≠ none →
        (env id).inventoryDrop = some idrop →
        idrop.requiredMinutesWatched ≤ idrop.currentMinutesWatched →
        hasPendingHigherPriorityStream env current now sleepTime
          (id :: rest) =
        ((hasPendingHigherPriorityStream env current now sleepTime rest).1,
          idrop.dropInstanceID ::
            (hasPendingHigherPriorityStream env current now sleepTime
              rest).2))
    ∧ (∀ details streams, some id ≠ current →
        cooldownSkip (env id).lastAttemptTime now sleepTime = false →
        (env id).status = "ACTIVE" →
        (env id).inventoryOk = true →
        (env id).detailsFetch = some details →
        (env id).firstUnclaimedDrop ≠ none →
        claimReadyProbe (env id) = false →
        (env id).streamsFetch = some streams →
        0 < (getActiveStreams streams details).length →
        hasPendingHigherPriorityStream env current now sleepTime
          (id :: rest) = (true, []))
    ∧ (∀ details, some id ≠ current →
        cooldownSkip (env id).lastAttemptTime now sleepTime = false →
        (env id).status = "ACTIVE" →
        (env id).inventoryOk = true →
        (env id).detailsFetch = some details →
        (env id).firstUnclaimedDrop ≠ none →
        claimReadyProbe (env id) = false →
        ((env id).streamsFetch = none ∨
          ∃ streams, (env id).streamsFetch = some streams ∧
            (getActiveStreams streams details).length = 0) →
        hasPendingHigherPriorityStream env current now sleepTime
          (id :: rest) =
        hasPendingHigherPriorityStream env current now sleepTime rest) := by
  refine ⟨rfl, ?_, ?_, ?_, ?_, ?_⟩
  · intro hcur
    simp only [hasPendingHigherPriorityStream]
    rw [if_pos hcur]
  · intro hcur hskip
    simp only [hasPendingHigherPriorityStream]
    rw [if_neg hcur]
    rcases hskip with h | h | h | h | h
    · simp [h]
    · by_cases hc : cooldownSkip (env id).lastAttemptTime now sleepTime
      · simp [hc]
      · simp [hc, h]
    · by_cases hc : cooldownSkip (env id).lastAttemptTime now sleepTime
      · simp [hc]
      · by_cases hs : (env id).status ≠ "ACTIVE"
        · simp [hc, hs]
        · simp [hc, hs, h]
    · by_cases hc : cooldownSkip (env id).lastAttemptTime now sleepTime
      · simp [hc]
      · by_cases hs : (env id).status ≠ "ACTIVE"
        · simp [hc, hs]
        · by_cases hi : (env id).inventoryOk
          · simp [hc, hs, hi, h]
          · simp [hc, hs, hi]
    · by_cases hc : cooldownSkip (env id).lastAttemptTime now sleepTime
      · simp [hc]
      · by_cases hs : (env id).status ≠ "ACTIVE"
        · simp [hc, hs]
        · by_cases hi : (env id).inventoryOk
          · cases hd : (env id).detailsFetch with
            | none => simp [hc, hs, hi, hd]
            | some details => simp [hc, hs, hi, hd, h]
          · simp [hc, hs, hi]
  · intro idrop hcur hc hs hi hd hf hidrop hready
    obtain ⟨details, hd'⟩ := Option.ne_none_iff_exists'.mp hd
    obtain ⟨d, hf'⟩ := Option.ne_none_iff_exists'.mp hf
    simp only [hasPendingHigherPriorityStream]
    rw [if_neg hcur]
    simp [hc, hs, hi, hd', hf', hidrop, hready]
  · intro details streams hcur hc hs hi hd hf hready hstreams hlen
    obtain ⟨d, hf'⟩ := Option.ne_none_iff_exists'.mp hf
    have hnr : ∀ idrop, (env id).inventoryDrop = some idrop →
        ¬(idrop.requiredMinutesWatched ≤ idrop.currentMinutesWatched) := by
      intro idrop hidrop
      intro hle
      rw [claimReadyProbe, hidrop] at hready
      simp [hle] at hready
    simp only [hasPendingHigherPriorityStream]
    rw [if_neg hcur]
    cases hidrop : (env id).inventoryDrop with
    | none => simp [hc, hs, hi, hd, hf', hidrop, hstreams, hlen]
    | some idrop =>
        have := hnr idrop hidrop
        simp [hc, hs, hi, hd, hf', hidrop, this, hstreams, hlen]
  · intro details hcur hc hs hi hd hf hready hmiss
    obtain ⟨d, hf'⟩ := Option.ne_none_iff_exists'.mp hf
    have hnr : ∀ idrop, (env id).inventoryDrop = some idrop →
        ¬(idrop.requiredMinutesWatched ≤ idrop.currentMinutesWatched) := by
      intro idrop hidrop
      intro hle
      rw [claimReadyProbe, hidrop] at hready
      simp [hle] at hready
    simp only [hasPendingHigherPriorityStream]
    rw [if_neg hcur]
    rcases hmiss with hnone | ⟨streams, hstreams, hlen⟩
    · cases hidrop : (env id).inventoryDrop with
      | none => simp [hc, hs, hi, hd, hf', hidrop, hnone]
      | some idrop =>
          have := hnr idrop hidrop
          simp [hc, hs, hi, hd, hf', hidrop, this, hnone]
    · cases hidrop : (env id).inventoryDrop with
      | none => simp [hc, hs, hi, hd, hf', hidrop, hstreams, hlen]
      | some idrop =>
          have := hnr idrop hidrop
          simp [hc, hs, hi, hd, hf', hidrop, this, hstreams, hlen]

/-- A concrete live stream used by witnesses. -/
def witnessStream : Stream :=
  { url := "https://www.twitch.tv/s1", broadcaster_id := "b1" }

/-- A concrete campaign-detail record with the allow-list disabled. -/
def witnessDetails : DropCampaignDetails :=
  { allow := { isEnabled := false, channels := none } }

/-- Candidate-probe environment used by the C2 witness: one candidate with
an unclaimed, not-yet-complete drop and one eligible live stream. -/
def witnessProbeEnv : String → CandidateProbe := fun id =>
  if id = "campHit" then
    { status := "ACTIVE", lastAttemptTime := none, inventoryOk := true,
      detailsFetch := some witnessDetails,
      firstUnclaimedDrop := some "d1",
      inventoryDrop := some
        { currentMinutesWatched := 30, requiredMinutesWatched := 60,
          dropInstanceID := "inst1" },
      streamsFetch := some [witnessStream] }
  else
    { status := "EXPIRED", lastAttemptTime := none, inventoryOk := false,
      detailsFetch := none, firstUnclaimedDrop := none,
      inventoryDrop := none, streamsFetch := none }

/-- Witness for C2: on the concrete candidate above the check reports
"found" with no claim side effect. -/
theorem higher_priority_check_iterates_as_specified_witness :
    hasPendingHigherPriorityStream witnessProbeEnv (some "campCur") 1000
      300000 ["campHit"] = (true, []) :=
  (higher_priority_check_iterates_as_specified witnessProbeEnv
      (some "campCur") 1000 300000 "campHit" []).2.2.2.2.1
    witnessDetails [witnessStream]
    (by decide) (by decide) (by decide) (by decide) (by decide) (by decide)
    (by decide) (by decide) (by decide)

/-- An empty failure-tracking state with the default 30-minute blacklist
timeout (in milliseconds). -/
def witnessFailState : FailState :=
  { failedStreamUrlCounts := fun _ => none,
    blacklist := { entries := [], timeoutMs := 1800000 } }

/-- A failure-tracking state in which witnessStream's url has already
failed twice (one short of the default threshold of 3). -/
def witnessFailStateTwo : FailState :=
  { failedStreamUrlCounts := fun u =>
      if u = "https://www.twitch.tv/s1" then some 2 else none,
    blacklist := { entries := [], timeoutMs := 1800000 } }

/-- C3 counterexample: a session failing with `HighPriorityError` does
change the failure bookkeeping — on a fresh state the url's counter goes
from absent to 1, and on a state with two prior failures (threshold 3) the
url even enters the blacklist. -/
theorem preemption_failure_changes_counter_and_blacklist :
    (watchStreamWrapperFailure 3 SessionError.highPriority
      "https://www.twitch.tv/s1" 0 witnessFailState).failedStreamUrlCounts
      "https://www.twitch.tv/s1" = some 1
    ∧ witnessFailState.failedStreamUrlCounts "https://www.twitch.tv/s1" = none
    ∧ (watchStreamWrapperFailure 3 SessionError.highPriority
        "https://www.twitch.tv/s1" 0 witnessFailStateTwo).blacklist.has 0
        "https://www.twitch.tv/s1" = true
    ∧ witnessFailStateTwo.blacklist.has 0 "https://www.twitch.tv/s1" =
        false := by
  refine ⟨?_, rfl, ?_, rfl⟩ <;> decide

/-- C3 (amended): a `HighPriorityError` session failure runs exactly the
same counter/blacklist bookkeeping as every other non-stream-down failure
(the increment of lines 808-817); only the stream-down kind gets the extra
immediate blacklisting. -/
theorem preemption_failure_counted_like_other_failures (retryCount : Int)
    (kind : SessionError) (url : String) (now : Int) (st : FailState)
    (h : kind ≠ SessionError.streamDown) :
    watchStreamWrapperFailure retryCount kind url now st =
      recordFailure retryCount url now st := by
  unfold watchStreamWrapperFailure
  rw [if_neg h]

/-- Witness for the amended C3: the preemption failure at a concrete input
performs exactly the plain record-failure update. -/
theorem preemption_failure_counted_like_other_failures_witness :
    watchStreamWrapperFailure 3 SessionError.highPriority
      "https://www.twitch.tv/s1" 0 witnessFailState =
    recordFailure 3 "https://www.twitch.tv/s1" 0 witnessFailState :=
  preemption_failure_counted_like_other_failures 3
    SessionError.highPriority "https://www.twitch.tv/s1" 0 witnessFailState
    (by decide)

/-- C6: recording a failure increments the url's counter (created at zero
when absent); once the incremented count reaches the retry threshold the
url enters the blacklist with the configured timeout and the counter entry
resets to zero; and a stream-down failure blacklists immediately whatever
the counter holds. -/
theorem failure_recording_updates_counter_and_blacklist (retryCount : Int)
    (url : String) (now : Int) (st : FailState) :
    ((st.failedStreamUrlCounts url).getD 0 + 1 < retryCount →
      (recordFailure retryCount url now st).failedStreamUrlCounts url =
        some ((st.failedStreamUrlCounts url).getD 0 + 1)
      ∧ (recordFailure retryCount url now st).blacklist = st.blacklist)
    ∧ (retryCount ≤ (st.failedStreamUrlCounts url).getD 0 + 1 →
      (recordFailure retryCount url now st).failedStreamUrlCounts url =
        some 0
      ∧ (recordFailure retryCount url now st).blacklist.entries =
        (url, now + st.blacklist.timeoutMs) :: st.blacklist.entries)
    ∧ ((url, now + st.blacklist.timeoutMs) ∈
        (watchStreamWrapperFailure retryCount SessionError.streamDown url
          now st).blacklist.entries) := by
  refine ⟨?_, ?_, ?_⟩
  · intro h
    unfold recordFailure
    rw [if_neg (by omega)]
    exact ⟨by simp, rfl⟩
  · intro h
    unfold recordFailure
    rw [if_pos h]
    exact ⟨by simp, rfl⟩
  · unfold watchStreamWrapperFailure recordFailure
    rw [if_pos rfl]
    by_cases h : retryCount ≤
        ((fun u => if u = url then some 0 else st.failedStreamUrlCounts u)
          url).getD 0 + 1
    · rw [if_pos h]
      simp [TimedSet.add]
    · rw [if_neg h]
      simp [TimedSet.add]

/-- Witness for C6: with threshold 3 a third failure of witnessStream's url
resets the counter to zero and inserts a blacklist entry expiring one
timeout after now. -/
theorem failure_recording_updates_counter_and_blacklist_witness :
    (recordFailure 3 "https://www.twitch.tv/s1" 100
      witnessFailStateTwo).failedStreamUrlCounts "https://www.twitch.tv/s1" =
      some 0
    ∧ (recordFailure 3 "https://www.twitch.tv/s1" 100
        witnessFailStateTwo).blacklist.entries =
      [("https://www.twitch.tv/s1", 1800100)]
    ∧ ("https://www.twitch.tv/s1", 1800100) ∈
      (watchStreamWrapperFailure 3 SessionError.streamDown
        "https://www.twitch.tv/s1" 100 witnessFailState).blacklist.entries :=
  ⟨((failure_recording_updates_counter_and_blacklist 3
      "https://www.twitch.tv/s1" 100 witnessFailStateTwo).2.1
      (by decide)).1,
   by
    have h := ((failure_recording_updates_counter_and_blacklist 3
      "https://www.twitch.tv/s1" 100 witnessFailStateTwo).2.1
      (by decide)).2
    simpa [witnessFailStateTwo] using h,
   by
    have h := (failure_recording_updates_counter_and_blacklist 3
      "https://www.twitch.tv/s1" 100 witnessFailState).2.2
    simpa [witnessFailState] using h⟩

/-- The blacklist entries of `witnessBlacklistedState`. -/
def witnessBlacklistEntries : List (String × Int) :=
  [("https://www.twitch.tv/s1", 1800000)]

/-- A blacklist already containing witnessStream's url. -/
def witnessBlacklistedState : FailState :=
  { failedStreamUrlCounts := fun _ => none,
    blacklist := { entries := witnessBlacklistEntries, timeoutMs := 1800000 } }

/-- C4 counterexample: with the bot's temporary blacklist containing the
url of the candidate campaign's only eligible live stream, the
higher-priority check still reports "found" — the probe (lines 382-393)
checks `#getActiveStreams`, which never consults the blacklist, so its
answer is computed without reading the blacklist at all. -/
theorem higher_priority_check_counts_blacklisted_streams :
    (hasPendingHigherPriorityStream witnessProbeEnv (some "campCur") 1000
      300000 ["campHit"]).1 = true
    ∧ (witnessProbeEnv "campHit").streamsFetch = some [witnessStream]
    ∧ witnessBlacklistedState.blacklist.has 1000 witnessStream.url = true
    ∧ getActiveStreams [witnessStream] witnessDetails = [witnessStream] := by
  refine ⟨?_, rfl, ?_, rfl⟩ <;> decide

/-- C4 (amended): campaign-mode stream selection filters out blacklisted
urls after `#getActiveStreams` returns (lines 654-657), so the stream it
watches is never blacklisted, and no stream surviving the filter is; the
higher-priority check, by contrast, probes the unfiltered list. -/
theorem campaign_mode_selection_filters_blacklist (retryCount : Int)
    (details : DropCampaignDetails) (now : Int) (st : FailState)
    (a : WatchAttemptEnv) (rest : List WatchAttemptEnv)
    (cls : List Stream) (first : Stream) (others : List Stream)
    (hcls : a.clientStreams = some cls)
    (hfil : (getActiveStreams cls details).filter
      (fun s => !(st.blacklist.has now s.url)) = first :: others) :
    st.blacklist.has now first.url = false
    ∧ (∃ evtail, (innerWatchLoop retryCount details now st (a :: rest)).1 =
        Event.selectStreams :: Event.watch first.url :: evtail)
    ∧ (∀ s ∈ (getActiveStreams cls details).filter
        (fun x => !(st.blacklist.has now x.url)),
        st.blacklist.has now s.url = false) := by
  have hmem : ∀ s ∈ (getActiveStreams cls details).filter
      (fun x => !(st.blacklist.has now x.url)),
      st.blacklist.has now s.url = false := by
    intro s hs
    have := List.of_mem_filter hs
    simpa using this
  refine ⟨hmem first (hfil ▸ List.mem_cons_self first others), ?_, hmem⟩
  simp only [innerWatchLoop, hcls, hfil]
  cases a.watchOutcome with
  | none => exact ⟨[], rfl⟩
  | some e =>
      dsimp only
      by_cases he : e = SessionError.highPriority
      · rw [if_pos he]
        exact ⟨[], rfl⟩
      · rw [if_neg he]
        exact ⟨_, rfl⟩

/-- A second live stream whose url is not blacklisted in
`witnessBlacklistedState`. -/
def witnessStreamTwo : Stream :=
  { url := "https://www.twitch.tv/s2", broadcaster_id := "b2" }

/-- Witness for the amended C4: of two fetched streams with the first one
blacklisted, campaign mode watches the second. -/
theorem campaign_mode_selection_filters_blacklist_witness :
    witnessBlacklistedState.blacklist.has 1000
      witnessStreamTwo.url = false
    ∧ (∃ evtail, (innerWatchLoop 3 witnessDetails 1000
        witnessBlacklistedState
        [{ clientStreams := some [witnessStream, witnessStreamTwo],
           watchOutcome := none }]).1 =
        Event.selectStreams :: Event.watch witnessStreamTwo.url :: evtail) :=
  ⟨(campaign_mode_selection_filters_blacklist 3 witnessDetails 1000
      witnessBlacklistedState
      { clientStreams := some [witnessStream, witnessStreamTwo],
        watchOutcome := none }
      [] [witnessStream, witnessStreamTwo] witnessStreamTwo [] rfl
      (by decide)).1,
   (campaign_mode_selection_filters_blacklist 3 witnessDetails 1000
      witnessBlacklistedState
      { clientStreams := some [witnessStream, witnessStreamTwo],
        watchOutcome := none }
      [] [witnessStream, witnessStreamTwo] witnessStreamTwo [] rfl
      (by decide)).2.1⟩

/-- C7: when the freshly fetched inventory shows the first unclaimed drop
watch-complete, the iteration issues exactly one claim call for its claim
instance, attempts no stream selection, and continues the loop (so the next
iteration re-fetches inventory). -/
theorem claim_ready_drop_claimed_before_stream_selection
    (attemptImpossible : Bool) (retryCount : Int) (parseDate : String → Int)
    (details : DropCampaignDetails) (env : IterEnv) (now : Int)
    (st : FailState) (drop : TimeBasedDrop) (idrop : InventoryDrop)
    (hinv : env.inventoryOk = true)
    (hdrop : env.firstUnclaimedDrop = some drop)
    (hidrop : env.inventoryDrop = some idrop)
    (hready : idrop.requiredMinutesWatched ≤ idrop.currentMinutesWatched) :
    processIteration attemptImpossible retryCount parseDate details env now
      st =
      ([Event.fetchInventory, Event.claim idrop.dropInstanceID], st,
        IterResult.continueLoop)
    ∧ Event.selectStreams ∉ (processIteration attemptImpossible retryCount
        parseDate details env now st).1
    ∧ (processIteration attemptImpossible retryCount parseDate details env
        now st).1.count (Event.claim idrop.dropInstanceID) = 1 := by
  have heq : processIteration attemptImpossible retryCount parseDate details
      env now st =
      ([Event.fetchInventory, Event.claim idrop.dropInstanceID], st,
        IterResult.continueLoop) := by
    simp [processIteration, hinv, hdrop, hidrop, hready]
  refine ⟨heq, ?_, ?_⟩
  · rw [heq]
    simp
  · rw [heq]
    simp

/-- Witness for C7: a concrete claim-ready iteration (60 of 60 required
minutes watched) claims "inst1" and continues without selecting streams. -/
theorem claim_ready_drop_claimed_before_stream_selection_witness :
    processIteration true 3 witnessParseDate witnessDetails
      { inventoryOk := true,
        firstUnclaimedDrop := some
          { id := "d1", requiredMinutesWatched := 60, endAt := "end-late" },
        inventoryDrop := some
          { currentMinutesWatched := 60, requiredMinutesWatched := 60,
            dropInstanceID := "inst1" },
        attempts := [] }
      1000 witnessFailState =
      ([Event.fetchInventory, Event.claim "inst1"], witnessFailState,
        IterResult.continueLoop) :=
  (claim_ready_drop_claimed_before_stream_selection true 3 witnessParseDate
    witnessDetails
    { inventoryOk := true,
      firstUnclaimedDrop := some
        { id := "d1", requiredMinutesWatched := 60, endAt := "end-late" },
      inventoryDrop := some
        { currentMinutesWatched := 60, requiredMinutesWatched := 60,
          dropInstanceID := "inst1" },
      attempts := [] }
    1000 witnessFailState
    { id := "d1", requiredMinutesWatched := 60, endAt := "end-late" }
    { currentMinutesWatched := 60, requiredMinutesWatched := 60,
      dropInstanceID := "inst1" }
    rfl rfl rfl (by decide)).1

/-- C10: whatever way `#processDropCampaign` comes back — normal return,
NoStreamsError, HighPriorityError or any other error — the finally block
resets `#currentDropCampaignId` to null, and nothing else of the scheduler
state is touched by the attempt wrapper itself. -/
theorem current_campaign_cleared_after_every_attempt
    (outcome : ProcessOutcome) (s : SchedulerState) :
    (campaignAttempt outcome s).currentDropCampaignId = none
    ∧ (campaignAttempt outcome s).pendingDropCampaignIds =
        s.pendingDropCampaignIds
    ∧ (campaignAttempt outcome s).dropCampaignMap = s.dropCampaignMap
    ∧ (campaignAttempt outcome s).pendingHighPriority =
        s.pendingHighPriority := by
  cases outcome <;> exact ⟨rfl, rfl, rfl, rfl⟩

theorem foldl_attempt_times_eq_foldl_min (times : String → Option Int) :
    ∀ (pending : List String),
      (∀ id ∈ pending, ∀ t, times id = some t → t ≠ 0) →
      ∀ a : Int,
        pending.foldl (fun m id =>
          match times id with
          | some t => if t ≠ 0 then min m t else m
          | none => m) a =
        (pending.filterMap times).foldl min a := by
  intro pending
  induction pending with
  | nil => intro _ a; rfl
  | cons id rest ih =>
      intro h a
      have hrest : ∀ i ∈ rest, ∀ t, times i = some t → t ≠ 0 := by
        intro i hi
        exact h i (List.mem_cons_of_mem id hi)
      cases ht : times id with
      | none =>
          simp only [List.foldl_cons, List.filterMap_cons, ht]
          exact ih hrest a
      | some t =>
          have htne : t ≠ 0 := h id (List.mem_cons_self id rest) t ht
          simp only [List.foldl_cons, List.filterMap_cons, ht]
          rw [if_pos htne]
          exact ih hrest (min a t)

theorem foldl_min_le_init : ∀ (l : List Int) (a : Int), l.foldl min a ≤ a := by
  intro l
  induction l with
  | nil => intro a; exact le_refl a
  | cons x xs ih =>
      intro a
      exact le_trans (ih (min a x)) (min_le_left a x)

theorem foldl_min_le_mem : ∀ (l : List Int) (a x : Int), x ∈ l →
    l.foldl min a ≤ x := by
  intro l
  induction l with
  | nil => intro a x hx; exact absurd hx (List.not_mem_nil x)
  | cons y ys ih =>
      intro a x hx
      rcases List.mem_cons.mp hx with rfl | hx'
      · exact le_trans (foldl_min_le_init ys (min a x)) (min_le_right a x)
      · exact ih (min a y) x hx'

theorem le_foldl_min : ∀ (l : List Int) (a m : Int), m ≤ a →
    (∀ t ∈ l, m ≤ t) → m ≤ l.foldl min a := by
  intro l
  induction l with
  | nil => intro a m hm _; exact hm
  | cons x xs ih =>
      intro a m hm hl
      exact ih (min a x) m
        (le_min hm (hl x (List.mem_cons_self x xs)))
        (fun t ht => hl t (List.mem_cons_of_mem x ht))

/-- C9: when the orchestrator sleeps, the duration is max(0, cool-down −
time elapsed since the least-recently-attempted pending campaign's
recorded attempt); with no recorded attempt among the pending campaigns
(in particular with an empty queue) it is the full cool-down window.
Hypothesis: recorded attempt times are real past timestamps (positive and
not after the current clock), which holds for every value the bot ever
stores there. -/
theorem sleeping_duration_matches_least_recent_attempt
    (pending : List String) (times : String → Option Int) (now : Int)
    (hvalid : ∀ id ∈ pending, ∀ t, times id = some t → 0 < t ∧ t ≤ now) :
    (pending.filterMap times = [] →
      computeSleepTime pending times now = sleepTimeMilliseconds)
    ∧ (∀ m, m ∈ pending.filterMap times →
        (∀ t ∈ pending.filterMap times, m ≤ t) →
        computeSleepTime pending times now =
          max 0 (sleepTimeMilliseconds - (now - m))) := by
  have hne : ∀ id ∈ pending, ∀ t, times id = some t → t ≠ 0 := by
    intro id hid t ht
    have := (hvalid id hid t ht).1
    omega
  have hfold := foldl_attempt_times_eq_foldl_min times pending hne now
  constructor
  · intro hempty
    rw [computeSleepTime, hfold, hempty]
    simp [sleepTimeMilliseconds]
  · intro m hm hlb
    have hmnow : m ≤ now := by
      rcases List.mem_filterMap.mp hm with ⟨id, hid, ht⟩
      exact (hvalid id hid m ht).2
    have hmin : (pending.filterMap times).foldl min now = m :=
      le_antisymm (foldl_min_le_mem _ now m hm)
        (le_foldl_min _ now m hmnow hlb)
    rw [computeSleepTime, hfold, hmin]

/-- Attempt-time map used by the C9 witness. -/
def witnessAttemptTimes : String → Option Int := fun id =>
  if id = "c1" then some 600000 else none

/-- Witness for C9: with pending campaign "c1" last attempted at 600000 and
the clock at 900000, the sleep is max(0, 300000 − 300000) = 0; with an
empty queue it is the full five-minute window. -/
theorem sleeping_duration_matches_least_recent_attempt_witness :
    computeSleepTime ["c1", "c2"] witnessAttemptTimes 900000 = 0
    ∧ computeSleepTime [] witnessAttemptTimes 900000 =
        sleepTimeMilliseconds := by
  have hvalid : ∀ id ∈ ["c1", "c2"], ∀ t,
      witnessAttemptTimes id = some t → 0 < t ∧ t ≤ 900000 := by
    intro id hid t ht
    rcases List.mem_cons.mp hid with rfl | hid'
    · simp [witnessAttemptTimes] at ht
      omega
    · rcases List.mem_cons.mp hid' with rfl | h
      · simp [witnessAttemptTimes] at ht
      · exact absurd h (List.not_mem_nil id)
  constructor
  · have h := (sleeping_duration_matches_least_recent_attempt
      ["c1", "c2"] witnessAttemptTimes 900000 hvalid).2 600000
      (by decide) (by decide)
    rw [h]
    decide
  · exact (sleeping_duration_matches_least_recent_attempt
      [] witnessAttemptTimes 900000 (by simp)).1 rfl

/-- Witness for C1: instantiates the comparator characterisation at concrete
campaigns; in particular "campA" (game first in the priority list, later end
time) sorts before "campC" (unlisted game, earlier end time). -/
theorem pending_queue_comparator_orders_as_specified_witness :
    compareDropCampaignIds ["g1", "g2"] witnessCampaigns witnessParseDate
      "campA" "campC" = -1
    ∧ compareDropCampaignIds ["g1", "g2"] witnessCampaigns witnessParseDate
      "campC" "campB" = 1
    ∧ compareDropCampaignIds ["g1", "g2"] witnessCampaigns witnessParseDate
      "campA" "campA" = 0 :=
  ⟨(pending_queue_comparator_orders_as_specified ["g1", "g2"] witnessCampaigns
      witnessParseDate "campA" "campC").2.2.2.2.2 (by decide)
      (by decide),
   (pending_queue_comparator_orders_as_specified ["g1", "g2"] witnessCampaigns
      witnessParseDate "campC" "campB").2.1 (by decide) (by decide),
   (pending_queue_comparator_orders_as_specified ["g1", "g2"] witnessCampaigns
      witnessParseDate "campA" "campA").1 rfl⟩

end TwitchDropsBot
